import Mathlib

/-!
Verification development for `src/inflation_analysis.py`.

The Python program works on pandas data frames.  We embed a frame as a
list of rows; numeric columns are `Rat` (the computations are exact
rational arithmetic on the CSV values), columns that a function may or
may not have assigned yet are `Option Rat` (`none` = column absent for
that row).  `pandas` selection `df[df['jahr'] == y]...iloc[0]` is
`List.find?` (first matching row, raising `IndexError` — modelled as
`Except.error Err.dataError` — when no row matches).  numpy float
division never raises, so division stays total in the embedding.
-/

set_option autoImplicit false

namespace InflationAnalysis

/-- Failure taxonomy from the spec (§7).  The embedding shows which of
these the code can actually produce: lookups that hit `.iloc[0]` on an
empty selection fail (`dataError`); divisions never fail. -/
inductive Err where
  | dataError : Err
  | divisionError : Err
deriving DecidableEq

instance {ε α : Type} [DecidableEq ε] [DecidableEq α] : DecidableEq (Except ε α) := fun x y =>
  match x, y with
  | .error a, .error b =>
    if h : a = b then isTrue (congrArg Except.error h)
    else isFalse (fun hc => h (Except.error.inj hc))
  | .error _, .ok _ => isFalse (fun hc => Except.noConfusion hc)
  | .ok _, .error _ => isFalse (fun hc => Except.noConfusion hc)
  | .ok a, .ok b =>
    if h : a = b then isTrue (congrArg Except.ok h)
    else isFalse (fun hc => h (Except.ok.inj hc))

/-- A row of the merged nominal/real frame `df` handed to
`calculate_inflation_rates`.  The last four columns are the ones that
function assigns; on the caller's input they are normally absent. -/
structure Row where
  jahr : Int
  umsatz_nominal : Rat
  umsatz_real : Rat
  preis_ratio : Option Rat := none
  preisindex : Option Rat := none
  inflation_kumulativ : Option Rat := none
  inflation_jaehrlich : Option Rat := none
deriving DecidableEq

/-- `pct_change` tail: previous value `prev`, pandas computes
`x / x.shift() - 1`; we already fold in the `* 100` applied at the call
site (`df['preisindex'].pct_change() * 100`). -/
def pctChangeGo (prev : Rat) : List Rat → List (Option Rat)
  | [] => []
  | x :: xs => some ((x / prev - 1) * 100) :: pctChangeGo x xs

/-- `series.pct_change() * 100`: `none` for the first entry (pandas
`NaN`: no prior row), then `(x_i / x_(i-1) - 1) * 100`. -/
def pctChange : List Rat → List (Option Rat)
  | [] => []
  | x :: xs => none :: pctChangeGo x xs

/-- One derived row of `calculate_inflation_rates`: lines 84–91 of the
source, for one row `r` with annual-inflation entry `ann`. -/
def deriveRow (base_ratio : Rat) (r : Row) (ann : Option Rat) : Row :=
  let ratio := r.umsatz_nominal / r.umsatz_real
  { r with preis_ratio := some ratio
         , preisindex := some (ratio / base_ratio)
         , inflation_kumulativ := some ((ratio / base_ratio - 1) * 100)
         , inflation_jaehrlich := ann }

/-- `calculate_inflation_rates(df, base_year)` (source lines 70–93).
Line 80: `df[df['jahr'] == base_year].iloc[0]` — first row whose `jahr`
equals `base_year`, `IndexError` (→ `dataError`) when none exists.
Lines 84–91 assign the four derived columns on every row; the annual
rate is `pct_change` over the frame's existing row order (the function
never sorts). -/
def calculate_inflation_rates (df : List Row) (base_year : Int) : Except Err (List Row) :=
  match df.find? (fun r => r.jahr == base_year) with
  | none => .error .dataError
  | some base_row =>
    let base_ratio := base_row.umsatz_nominal / base_row.umsatz_real
    let pis := df.map (fun r => (r.umsatz_nominal / r.umsatz_real) / base_ratio)
    .ok (List.zipWith (deriveRow base_ratio) df (pctChange pis))

/-- A row of `df_nominal` (columns `jahr`, `umsatz_nominal`). -/
structure NomRecord where
  jahr : Int
  umsatz_nominal : Rat
deriving DecidableEq

/-- A row of `df_destatis` (columns `jahr`, `inflation_rate_jahr`). -/
structure RateRecord where
  jahr : Int
  inflation_rate_jahr : Rat
deriving DecidableEq

/-- A row of the result frame of `calculate_real_umsatz_with_destatis`:
the nominal columns plus the three columns the function adds. -/
structure DestatisRow where
  jahr : Int
  umsatz_nominal : Rat
  umsatz_real_destatis : Rat
  preisindex_destatis : Rat
  inflation_kumulativ_destatis : Rat
deriving DecidableEq

/-- Lines 41–44: `result_df = df_nominal.copy()` with the default
columns `umsatz_real_destatis = umsatz_nominal`,
`preisindex_destatis = 1.0`, `inflation_kumulativ_destatis = 0.0`. -/
def initDestatisRow (r : NomRecord) : DestatisRow :=
  ⟨r.jahr, r.umsatz_nominal, r.umsatz_nominal, 1, 0⟩

/-- Lines 63–66: `result_df.loc[mask, ...] = ...` — rows whose `jahr`
matches the rate record get the freshly chained values, all other rows
are untouched. -/
def applyRate (rec : RateRecord) (preisindex real_umsatz : Rat) (row : DestatisRow) :
    DestatisRow :=
  if row.jahr == rec.jahr then
    { row with umsatz_real_destatis := real_umsatz
             , preisindex_destatis := preisindex
             , inflation_kumulativ_destatis := (preisindex - 1) * 100 }
  else row

/-- One iteration of the loop over `df_destatis.iterrows()` (lines
51–66), carried state = (`preisindex`, current `result_df` rows).
Line 59's `.iloc[0]` on an empty selection is the `dataError` case. -/
def chainStep (df_nominal : List NomRecord) (st : Rat × List DestatisRow) (rec : RateRecord) :
    Except Err (Rat × List DestatisRow) :=
  let preisindex := st.1 * (1 + rec.inflation_rate_jahr)
  match df_nominal.find? (fun r => r.jahr == rec.jahr) with
  | none => .error .dataError
  | some nr =>
    let real_umsatz := nr.umsatz_nominal / preisindex
    .ok (preisindex, st.2.map (applyRate rec preisindex real_umsatz))

/-- Lines 41–47: the result frame before the rate loop runs — defaults
for every row, then line 47 pins `umsatz_real_destatis` of every
base-year row to `base_nominal` (the first base-year row's nominal). -/
def initRows (df_nominal : List NomRecord) (base_nominal : Rat) (base_year : Int) :
    List DestatisRow :=
  (df_nominal.map initDestatisRow).map (fun row =>
    if row.jahr == base_year then { row with umsatz_real_destatis := base_nominal } else row)

/-- `calculate_real_umsatz_with_destatis(df_nominal, df_destatis, base_year)`
(source lines 33–68).  Line 38 reads the base year's nominal revenue
(`IndexError` → `dataError` when absent), lines 41–47 build the default
frame, lines 50–66 run the chained-index loop in `df_destatis` row
order. -/
def calculate_real_umsatz_with_destatis (df_nominal : List NomRecord)
    (df_destatis : List RateRecord) (base_year : Int) : Except Err (List DestatisRow) :=
  match df_nominal.find? (fun r => r.jahr == base_year) with
  | none => .error .dataError
  | some b =>
    (df_destatis.foldlM (chainStep df_nominal)
      (1, initRows df_nominal b.umsatz_nominal base_year)).map Prod.snd

/-- The running product `Π (1 + rate)` over a rate list, as folded up by
the loop's `preisindex *= (1 + inflation_rate)`. -/
def prodRates (rates : List RateRecord) : Rat :=
  rates.foldl (fun p r => p * (1 + r.inflation_rate_jahr)) 1

/-- The columns `main` selects from the Lakner frame for the merge at
line 289: `df[['jahr', 'umsatz_real', 'preisindex', 'inflation_kumulativ']]`. -/
structure LaknerCols where
  jahr : Int
  umsatz_real : Rat
  preisindex : Option Rat
  inflation_kumulativ : Option Rat
deriving DecidableEq

/-- Column selection from a Lakner row. -/
def laknerCols (r : Row) : LaknerCols :=
  ⟨r.jahr, r.umsatz_real, r.preisindex, r.inflation_kumulativ⟩

/-- A row of `df_combined` after the merge at lines 289–290: the
Destatis columns, plus the Lakner columns when the year found a match
(`none` = the pandas `NaN` cells of an unmatched left row). -/
structure CombinedRow where
  dest : DestatisRow
  lakner : Option LaknerCols
deriving DecidableEq

/-- `pd.merge(df_combined, df[[...]], on='jahr', how='left')` (lines
289–290): every left row is kept; it is paired with each right row of
equal `jahr`, or with `NaN` columns when no right row matches. -/
def merge_left (left : List DestatisRow) (right : List LaknerCols) : List CombinedRow :=
  left.flatMap (fun l =>
    match right.filter (fun r => r.jahr == l.jahr) with
    | [] => [⟨l, none⟩]
    | ms => ms.map (fun m => ⟨l, some m⟩))

/-- Line 255: `differenz = real_destatis - real_lakner` for one row of
the merged frame (`none` when the Lakner side is `NaN`). -/
def differenz (c : CombinedRow) : Option Rat :=
  c.lakner.map (fun m => c.dest.umsatz_real_destatis - m.umsatz_real)

/-- Line 268: `diff_kumul = destatis_kumul - lakner_kumul` for one row
of the merged frame. -/
def diff_kumul (c : CombinedRow) : Option Rat :=
  c.lakner.bind (fun m =>
    m.inflation_kumulativ.map (fun lk => c.dest.inflation_kumulativ_destatis - lk))

/-- Lines 302–306: the "final" cumulative-inflation difference printed
by `main`.  The year is hard-coded to `2025`: both lookups are
`df[df['jahr'] == 2025][col].iloc[0]`, raising `IndexError`
(→ `dataError`) when no 2025 row exists; the difference is
Destatis minus Lakner. -/
def final_year_diff (df : List Row) (df_combined : List CombinedRow) : Except Err (Option Rat) :=
  match df.find? (fun r => r.jahr == (2025 : Int)) with
  | none => .error .dataError
  | some rL =>
    match df_combined.find? (fun c => c.dest.jahr == (2025 : Int)) with
    | none => .error .dataError
    | some rC =>
      .ok (rL.inflation_kumulativ.map
        (fun l => rC.dest.inflation_kumulativ_destatis - l))

/-- Line 308: `df_destatis['inflation_rate_jahr'].mean() * 100` — the
arithmetic mean of the raw Destatis rates, as a percentage. -/
def avg_destatis (rates : List RateRecord) : Rat :=
  (rates.foldl (fun a r => a + r.inflation_rate_jahr) 0) / (rates.length : Rat) * 100

/-! ### List helper lemmas -/

theorem get?_zipWith {α β γ : Type} (f : α → β → γ) (l₁ : List α) (l₂ : List β) (i : Nat) :
    (List.zipWith f l₁ l₂).get? i = (l₁.get? i).bind (fun a => (l₂.get? i).map (f a)) := by
  induction l₁ generalizing l₂ i with
  | nil => simp
  | cons a as ih =>
    cases l₂ with
    | nil => simp
    | cons b bs =>
      cases i with
      | zero => simp
      | succ j => simpa using ih bs j

theorem find?_eq_filter_head? {α : Type} (p : α → Bool) (l : List α) :
    l.find? p = (l.filter p).head? := by
  induction l with
  | nil => rfl
  | cons a as ih =>
    by_cases h : p a
    · rw [List.find?_cons_of_pos as h, List.filter_cons_of_pos h]
      rfl
    · rw [List.find?_cons_of_neg as h, List.filter_cons_of_neg h, ih]

theorem find?_first {α : Type} (p : α → Bool) (l : List α) (b : α) (h : l.find? p = some b) :
    ∃ i, l.get? i = some b ∧ p b = true ∧
      ∀ j, j < i → ∀ r, l.get? j = some r → p r = false := by
  induction l with
  | nil => simp at h
  | cons a as ih =>
    by_cases ha : p a
    · rw [List.find?_cons_of_pos as ha] at h
      cases h
      exact ⟨0, rfl, ha, fun j hj r _ => absurd hj (by omega)⟩
    · rw [List.find?_cons_of_neg as ha] at h
      obtain ⟨i, hget, hb, hbefore⟩ := ih h
      refine ⟨i + 1, hget, hb, ?_⟩
      intro j hj r hr
      cases j with
      | zero =>
        simp only [List.get?] at hr
        cases hr
        simpa using ha
      | succ j' => exact hbefore j' (by omega) r hr

theorem find?_of_get?_nodup {α β : Type} [DecidableEq β] (f : α → β) (l : List α)
    (hnd : (l.map f).Nodup) (i : Nat) (a : α) (h : l.get? i = some a) :
    l.find? (fun x => f x == f a) = some a := by
  induction l generalizing i with
  | nil => simp at h
  | cons x xs ih =>
    simp only [List.map_cons, List.nodup_cons] at hnd
    cases i with
    | zero =>
      simp only [List.get?] at h
      cases h
      simp [List.find?]
    | succ j =>
      simp only [List.get?] at h
      have hmem : a ∈ xs := List.get?_mem h
      have hne : f x ≠ f a := by
        intro heq
        exact hnd.1 (heq ▸ List.mem_map_of_mem f hmem)
      have hbeq : (f x == f a) = false := by
        simpa using hne
      simp only [List.find?, hbeq]
      exact ih hnd.2 j h

/-! ### `pct_change` lemmas -/

theorem pctChangeGo_length (prev : Rat) (l : List Rat) :
    (pctChangeGo prev l).length = l.length := by
  induction l generalizing prev with
  | nil => rfl
  | cons x xs ih => simp [pctChangeGo, ih]

theorem pctChange_length (l : List Rat) : (pctChange l).length = l.length := by
  cases l with
  | nil => rfl
  | cons x xs => simp [pctChange, pctChangeGo_length]

theorem pctChange_get?_zero (l : List Rat) (x : Rat) (h : l.get? 0 = some x) :
    (pctChange l).get? 0 = some none := by
  cases l with
  | nil => simp at h
  | cons a as => rfl

theorem pctChangeGo_get? (l : List Rat) (prev : Rat) (i : Nat) (x p : Rat)
    (hx : l.get? i = some x) (hp : (prev :: l).get? i = some p) :
    (pctChangeGo prev l).get? i = some (some ((x / p - 1) * 100)) := by
  induction l generalizing prev i with
  | nil => simp at hx
  | cons a as ih =>
    cases i with
    | zero =>
      simp only [List.get?] at hx hp
      cases hx; cases hp
      rfl
    | succ j =>
      simp only [List.get?] at hx hp
      exact ih a j hx hp

theorem pctChange_get?_succ (l : List Rat) (i : Nat) (x p : Rat)
    (hx : l.get? (i + 1) = some x) (hp : l.get? i = some p) :
    (pctChange l).get? (i + 1) = some (some ((x / p - 1) * 100)) := by
  cases l with
  | nil => simp at hx
  | cons a as =>
    show (pctChangeGo a as).get? i = _
    exact pctChangeGo_get? as a i x p (by simpa using hx) hp

/-! ### Shape of `calculate_inflation_rates` -/

theorem get?_lt_length {α : Type} (l : List α) (i : Nat) (a : α) (h : l.get? i = some a) :
    i < l.length := by
  induction l generalizing i with
  | nil => simp at h
  | cons x xs ih =>
    cases i with
    | zero => simp
    | succ j =>
      simp only [List.get?] at h
      have := ih j h
      simp only [List.length_cons]
      omega

theorem get?_of_lt_length {α : Type} (l : List α) (i : Nat) (h : i < l.length) :
    ∃ a, l.get? i = some a := by
  induction l generalizing i with
  | nil => simp at h
  | cons x xs ih =>
    cases i with
    | zero => exact ⟨x, rfl⟩
    | succ j => exact ih j (by simpa [Nat.succ_lt_succ_iff] using h)

@[simp] theorem deriveRow_jahr (br : Rat) (r : Row) (ann : Option Rat) :
    (deriveRow br r ann).jahr = r.jahr := rfl

@[simp] theorem deriveRow_nominal (br : Rat) (r : Row) (ann : Option Rat) :
    (deriveRow br r ann).umsatz_nominal = r.umsatz_nominal := rfl

@[simp] theorem deriveRow_real (br : Rat) (r : Row) (ann : Option Rat) :
    (deriveRow br r ann).umsatz_real = r.umsatz_real := rfl

@[simp] theorem deriveRow_preisindex (br : Rat) (r : Row) (ann : Option Rat) :
    (deriveRow br r ann).preisindex = some ((r.umsatz_nominal / r.umsatz_real) / br) := rfl

@[simp] theorem deriveRow_kumulativ (br : Rat) (r : Row) (ann : Option Rat) :
    (deriveRow br r ann).inflation_kumulativ =
      some (((r.umsatz_nominal / r.umsatz_real) / br - 1) * 100) := rfl

@[simp] theorem deriveRow_jaehrlich (br : Rat) (r : Row) (ann : Option Rat) :
    (deriveRow br r ann).inflation_jaehrlich = ann := rfl

theorem calc_rates_eq (df : List Row) (base_year : Int) (b : Row)
    (h : df.find? (fun r => r.jahr == base_year) = some b) :
    calculate_inflation_rates df base_year =
      .ok (List.zipWith (deriveRow (b.umsatz_nominal / b.umsatz_real)) df
        (pctChange (df.map (fun r =>
          (r.umsatz_nominal / r.umsatz_real) / (b.umsatz_nominal / b.umsatz_real))))) := by
  unfold calculate_inflation_rates
  rw [h]

theorem calc_rates_error (df : List Row) (base_year : Int)
    (h : df.find? (fun r => r.jahr == base_year) = none) :
    calculate_inflation_rates df base_year = .error .dataError := by
  unfold calculate_inflation_rates
  rw [h]

theorem calc_rates_error_only (df : List Row) (base_year : Int) (e : Err)
    (h : calculate_inflation_rates df base_year = .error e) : e = .dataError := by
  unfold calculate_inflation_rates at h
  cases hf : df.find? (fun r => r.jahr == base_year) with
  | none => rw [hf] at h; cases h; rfl
  | some b => rw [hf] at h; simp at h

theorem calc_rates_get? (df : List Row) (base_year : Int) (b : Row)
    (h : df.find? (fun r => r.jahr == base_year) = some b)
    (out : List Row) (hout : calculate_inflation_rates df base_year = .ok out)
    (i : Nat) (r : Row) (hr : df.get? i = some r) :
    ∃ ann,
      (pctChange (df.map (fun s =>
        (s.umsatz_nominal / s.umsatz_real) / (b.umsatz_nominal / b.umsatz_real)))).get? i
        = some ann ∧
      out.get? i = some (deriveRow (b.umsatz_nominal / b.umsatz_real) r ann) := by
  rw [calc_rates_eq df base_year b h] at hout
  have hlen : i < df.length := get?_lt_length df i r hr
  have hlen' : i < (pctChange (df.map (fun s =>
      (s.umsatz_nominal / s.umsatz_real) / (b.umsatz_nominal / b.umsatz_real)))).length := by
    rw [pctChange_length, List.length_map]
    exact hlen
  obtain ⟨ann, hann⟩ := get?_of_lt_length _ i hlen'
  refine ⟨ann, hann, ?_⟩
  have : out = List.zipWith (deriveRow (b.umsatz_nominal / b.umsatz_real)) df
      (pctChange (df.map (fun s =>
        (s.umsatz_nominal / s.umsatz_real) / (b.umsatz_nominal / b.umsatz_real)))) := by
    cases hout
    rfl
  rw [this, get?_zipWith, hr, hann]
  rfl

theorem calc_rates_length (df : List Row) (base_year : Int)
    (out : List Row) (hout : calculate_inflation_rates df base_year = .ok out) :
    out.length = df.length := by
  unfold calculate_inflation_rates at hout
  cases hf : df.find? (fun r => r.jahr == base_year) with
  | none => rw [hf] at hout; cases hout
  | some b =>
    rw [hf] at hout
    cases hout
    rw [List.length_zipWith, pctChange_length, List.length_map]
    exact Nat.min_self _

/-! ### Shape of the chained reconstruction -/

theorem foldl_mul_prodRates : ∀ (rates : List RateRecord) (p : Rat),
    rates.foldl (fun q r => q * (1 + r.inflation_rate_jahr)) p = p * prodRates rates
  | [], p => by simp [prodRates]
  | r :: rs, p => by
    rw [List.foldl_cons, foldl_mul_prodRates rs (p * (1 + r.inflation_rate_jahr))]
    have h2 : prodRates (r :: rs) = (1 * (1 + r.inflation_rate_jahr)) * prodRates rs := by
      show rs.foldl _ (1 * (1 + r.inflation_rate_jahr)) = _
      rw [foldl_mul_prodRates rs (1 * (1 + r.inflation_rate_jahr))]
    rw [h2]
    ring

theorem prodRates_cons (r : RateRecord) (rs : List RateRecord) :
    prodRates (r :: rs) = (1 + r.inflation_rate_jahr) * prodRates rs := by
  show rs.foldl _ (1 * (1 + r.inflation_rate_jahr)) = _
  rw [foldl_mul_prodRates]
  ring

@[simp] theorem applyRate_jahr (rec : RateRecord) (pi v : Rat) (row : DestatisRow) :
    (applyRate rec pi v row).jahr = row.jahr := by
  unfold applyRate; split <;> rfl

@[simp] theorem applyRate_nominal (rec : RateRecord) (pi v : Rat) (row : DestatisRow) :
    (applyRate rec pi v row).umsatz_nominal = row.umsatz_nominal := by
  unfold applyRate; split <;> rfl

theorem applyRate_of_ne (rec : RateRecord) (pi v : Rat) (row : DestatisRow)
    (h : row.jahr ≠ rec.jahr) : applyRate rec pi v row = row := by
  unfold applyRate
  rw [if_neg]
  simpa using h

theorem applyRate_of_eq (rec : RateRecord) (pi v : Rat) (row : DestatisRow)
    (h : row.jahr = rec.jahr) :
    applyRate rec pi v row =
      { row with umsatz_real_destatis := v
               , preisindex_destatis := pi
               , inflation_kumulativ_destatis := (pi - 1) * 100 } := by
  unfold applyRate
  rw [if_pos]
  simpa using h

theorem chainStep_error (nom : List NomRecord) (st : Rat × List DestatisRow) (rec : RateRecord)
    (h : nom.find? (fun r => r.jahr == rec.jahr) = none) :
    chainStep nom st rec = .error .dataError := by
  unfold chainStep; rw [h]

theorem chainStep_ok (nom : List NomRecord) (st : Rat × List DestatisRow) (rec : RateRecord)
    (nr : NomRecord) (h : nom.find? (fun r => r.jahr == rec.jahr) = some nr) :
    chainStep nom st rec = .ok (st.1 * (1 + rec.inflation_rate_jahr),
      st.2.map (applyRate rec (st.1 * (1 + rec.inflation_rate_jahr))
        (nr.umsatz_nominal / (st.1 * (1 + rec.inflation_rate_jahr))))) := by
  unfold chainStep; rw [h]

theorem chainLoop_ok (nom : List NomRecord) (rates : List RateRecord) :
    ∀ st : Rat × List DestatisRow,
      (∀ r ∈ rates, (nom.find? (fun n => n.jahr == r.jahr)).isSome) →
      ∃ st', rates.foldlM (chainStep nom) st = .ok st' := by
  induction rates with
  | nil => intro st _; exact ⟨st, rfl⟩
  | cons r rs ih =>
    intro st hall
    obtain ⟨nr, hnr⟩ := Option.isSome_iff_exists.mp (hall r (List.mem_cons_self r rs))
    rw [List.foldlM_cons, chainStep_ok nom st r nr hnr]
    obtain ⟨st', hst'⟩ := ih _ (fun x hx => hall x (List.mem_cons_of_mem r hx))
    exact ⟨st', hst'⟩

theorem chainLoop_find?_of_ok (nom : List NomRecord) (rates : List RateRecord) :
    ∀ st st', rates.foldlM (chainStep nom) st = .ok st' →
      ∀ r ∈ rates, (nom.find? (fun n => n.jahr == r.jahr)).isSome := by
  induction rates with
  | nil => intro st st' _ r hr; simp at hr
  | cons r0 rs ih =>
    intro st st' h r hr
    rw [List.foldlM_cons] at h
    cases hf : nom.find? (fun n => n.jahr == r0.jahr) with
    | none =>
      rw [chainStep_error nom st r0 hf] at h
      exact Except.noConfusion h
    | some nr =>
      rw [chainStep_ok nom st r0 nr hf] at h
      rcases List.mem_cons.mp hr with h1 | h2
      · subst h1; simp [hf]
      · exact ih _ st' h r h2

theorem chainLoop_error_of_missing (nom : List NomRecord) (rates : List RateRecord) :
    ∀ st : Rat × List DestatisRow,
      (∃ r ∈ rates, nom.find? (fun n => n.jahr == r.jahr) = none) →
      rates.foldlM (chainStep nom) st = .error .dataError := by
  induction rates with
  | nil => rintro st ⟨r, hr, _⟩; simp at hr
  | cons r0 rs ih =>
    rintro st ⟨r, hr, hnone⟩
    rw [List.foldlM_cons]
    rcases List.mem_cons.mp hr with h1 | h2
    · subst h1
      rw [chainStep_error nom st r hnone]
      rfl
    · cases hf : nom.find? (fun n => n.jahr == r0.jahr) with
      | none => rw [chainStep_error nom st r0 hf]; rfl
      | some nr =>
        rw [chainStep_ok nom st r0 nr hf]
        exact ih _ ⟨r, h2, hnone⟩

theorem chainLoop_fst (nom : List NomRecord) (rates : List RateRecord) :
    ∀ (p : Rat) (rows : List DestatisRow) (st' : Rat × List DestatisRow),
      rates.foldlM (chainStep nom) (p, rows) = .ok st' →
      st'.1 = p * prodRates rates := by
  induction rates with
  | nil =>
    intro p rows st' h
    have h' : (Except.ok (p, rows) : Except Err (Rat × List DestatisRow)) = .ok st' := h
    rw [← Except.ok.inj h']
    simp [prodRates]
  | cons r rs ih =>
    intro p rows st' h
    rw [List.foldlM_cons] at h
    cases hf : nom.find? (fun n => n.jahr == r.jahr) with
    | none =>
      rw [chainStep_error nom (p, rows) r hf] at h
      exact Except.noConfusion h
    | some nr =>
      rw [chainStep_ok nom (p, rows) r nr hf] at h
      rw [ih (p * (1 + r.inflation_rate_jahr)) _ st' h, prodRates_cons]
      ring

theorem chainLoop_get? (nom : List NomRecord) (rates : List RateRecord) :
    ∀ (st : Rat × List DestatisRow) (st' : Rat × List DestatisRow) (i : Nat) (row : DestatisRow),
      rates.foldlM (chainStep nom) st = .ok st' →
      st.2.get? i = some row →
      ∃ row', st'.2.get? i = some row' ∧ row'.jahr = row.jahr ∧
        row'.umsatz_nominal = row.umsatz_nominal := by
  induction rates with
  | nil =>
    intro st st' i row h hrow
    have h' : (Except.ok st : Except Err (Rat × List DestatisRow)) = .ok st' := h
    rw [← Except.ok.inj h']
    exact ⟨row, hrow, rfl, rfl⟩
  | cons r rs ih =>
    intro st st' i row h hrow
    rw [List.foldlM_cons] at h
    cases hf : nom.find? (fun n => n.jahr == r.jahr) with
    | none =>
      rw [chainStep_error nom st r hf] at h
      exact Except.noConfusion h
    | some nr =>
      rw [chainStep_ok nom st r nr hf] at h
      have hrow' : (st.2.map (applyRate r (st.1 * (1 + r.inflation_rate_jahr))
          (nr.umsatz_nominal / (st.1 * (1 + r.inflation_rate_jahr))))).get? i
          = some (applyRate r (st.1 * (1 + r.inflation_rate_jahr))
              (nr.umsatz_nominal / (st.1 * (1 + r.inflation_rate_jahr))) row) := by
        rw [List.get?_map, hrow]
        rfl
      obtain ⟨row', h1, h2, h3⟩ := ih _ st' i _ h hrow'
      refine ⟨row', h1, ?_, ?_⟩
      · rw [h2]; simp
      · rw [h3]; simp

theorem chainLoop_get?_untouched (nom : List NomRecord) (rates : List RateRecord) :
    ∀ (st : Rat × List DestatisRow) (st' : Rat × List DestatisRow) (i : Nat) (row : DestatisRow),
      rates.foldlM (chainStep nom) st = .ok st' →
      st.2.get? i = some row →
      row.jahr ∉ rates.map (fun r => r.jahr) →
      st'.2.get? i = some row := by
  induction rates with
  | nil =>
    intro st st' i row h hrow _
    have h' : (Except.ok st : Except Err (Rat × List DestatisRow)) = .ok st' := h
    rw [← Except.ok.inj h']
    exact hrow
  | cons r rs ih =>
    intro st st' i row h hrow hnot
    rw [List.foldlM_cons] at h
    cases hf : nom.find? (fun n => n.jahr == r.jahr) with
    | none =>
      rw [chainStep_error nom st r hf] at h
      exact Except.noConfusion h
    | some nr =>
      rw [chainStep_ok nom st r nr hf] at h
      have hne : row.jahr ≠ r.jahr := by
        intro he
        exact hnot (by simp [he])
      have hrow' : (st.2.map (applyRate r (st.1 * (1 + r.inflation_rate_jahr))
          (nr.umsatz_nominal / (st.1 * (1 + r.inflation_rate_jahr))))).get? i = some row := by
        rw [List.get?_map, hrow, Option.map_some', applyRate_of_ne _ _ _ _ hne]
      exact ih _ st' i row h hrow' (fun hm => hnot (by simp [hm]))

theorem chainLoop_get?_written (nom : List NomRecord) (rates : List RateRecord) :
    ∀ (p : Rat) (rows : List DestatisRow) (st' : Rat × List DestatisRow) (k : Nat)
      (rk : RateRecord) (i : Nat) (row : DestatisRow) (nr : NomRecord),
      (rates.map (fun r => r.jahr)).Nodup →
      rates.foldlM (chainStep nom) (p, rows) = .ok st' →
      rates.get? k = some rk →
      rows.get? i = some row →
      row.jahr = rk.jahr →
      nom.find? (fun n => n.jahr == rk.jahr) = some nr →
      st'.2.get? i = some
        { row with
          umsatz_real_destatis := nr.umsatz_nominal / (p * prodRates (rates.take (k + 1)))
        , preisindex_destatis := p * prodRates (rates.take (k + 1))
        , inflation_kumulativ_destatis := (p * prodRates (rates.take (k + 1)) - 1) * 100 } := by
  induction rates with
  | nil => intro p rows st' k rk i row nr _ _ hk; simp at hk
  | cons r rs ih =>
    intro p rows st' k rk i row nr hnd h hk hrow hjahr hnr
    rw [List.foldlM_cons] at h
    simp only [List.map_cons, List.nodup_cons] at hnd
    cases k with
    | zero =>
      have hrk : r = rk := by
        have : some r = some rk := hk
        exact Option.some.inj this
      subst hrk
      rw [chainStep_ok nom (p, rows) r nr hnr] at h
      have hrow' : (rows.map (applyRate r (p * (1 + r.inflation_rate_jahr))
          (nr.umsatz_nominal / (p * (1 + r.inflation_rate_jahr))))).get? i
          = some { row with
              umsatz_real_destatis := nr.umsatz_nominal / (p * (1 + r.inflation_rate_jahr))
            , preisindex_destatis := p * (1 + r.inflation_rate_jahr)
            , inflation_kumulativ_destatis := (p * (1 + r.inflation_rate_jahr) - 1) * 100 } := by
        rw [List.get?_map, hrow, Option.map_some', applyRate_of_eq _ _ _ _ hjahr]
      have huntouched := chainLoop_get?_untouched nom rs _ st' i _ h hrow'
        (by
          show row.jahr ∉ rs.map (fun r => r.jahr)
          rw [hjahr]
          exact hnd.1)
      have hP : p * prodRates ((r :: rs).take (0 + 1)) = p * (1 + r.inflation_rate_jahr) := by
        show p * prodRates [r] = _
        rw [prodRates_cons]
        simp [prodRates]
      rw [hP]
      exact huntouched
    | succ k' =>
      cases hf : nom.find? (fun n => n.jahr == r.jahr) with
      | none =>
        rw [chainStep_error nom (p, rows) r hf] at h
        exact Except.noConfusion h
      | some nr0 =>
        rw [chainStep_ok nom (p, rows) r nr0 hf] at h
        have hk' : rs.get? k' = some rk := hk
        have hmem : rk.jahr ∈ rs.map (fun r => r.jahr) :=
          List.mem_map_of_mem _ (List.get?_mem hk')
        have hne : row.jahr ≠ r.jahr := by
          rw [hjahr]
          intro he
          exact hnd.1 (he ▸ hmem)
        have hrow' : (rows.map (applyRate r (p * (1 + r.inflation_rate_jahr))
            (nr0.umsatz_nominal / (p * (1 + r.inflation_rate_jahr))))).get? i = some row := by
          rw [List.get?_map, hrow, Option.map_some', applyRate_of_ne _ _ _ _ hne]
        have hrec := ih (p * (1 + r.inflation_rate_jahr)) _ st' k' rk i row nr hnd.2 h hk'
          hrow' hjahr hnr
        have hP : p * prodRates ((r :: rs).take (k' + 1 + 1))
            = p * (1 + r.inflation_rate_jahr) * prodRates (rs.take (k' + 1)) := by
          rw [List.take_succ_cons, prodRates_cons]
          ring
        rw [hP]
        exact hrec

theorem chainLoop_error_only (nom : List NomRecord) (rates : List RateRecord) :
    ∀ (st : Rat × List DestatisRow) (e : Err),
      rates.foldlM (chainStep nom) st = .error e → e = .dataError := by
  induction rates with
  | nil =>
    intro st e h
    exact Except.noConfusion (h : (Except.ok st : Except Err (Rat × List DestatisRow)) = .error e)
  | cons r rs ih =>
    intro st e h
    rw [List.foldlM_cons] at h
    cases hf : nom.find? (fun n => n.jahr == r.jahr) with
    | none =>
      rw [chainStep_error nom st r hf] at h
      exact (Except.error.inj
        (h : (Except.error Err.dataError : Except Err (Rat × List DestatisRow)) = .error e)).symm
    | some nr =>
      rw [chainStep_ok nom st r nr hf] at h
      exact ih _ e h

theorem chainLoop_length (nom : List NomRecord) (rates : List RateRecord) :
    ∀ (st st' : Rat × List DestatisRow),
      rates.foldlM (chainStep nom) st = .ok st' → st'.2.length = st.2.length := by
  induction rates with
  | nil =>
    intro st st' h
    rw [← Except.ok.inj (h : (Except.ok st : Except Err (Rat × List DestatisRow)) = .ok st')]
  | cons r rs ih =>
    intro st st' h
    rw [List.foldlM_cons] at h
    cases hf : nom.find? (fun n => n.jahr == r.jahr) with
    | none =>
      rw [chainStep_error nom st r hf] at h
      exact Except.noConfusion h
    | some nr =>
      rw [chainStep_ok nom st r nr hf] at h
      rw [ih _ st' h]
      simp

theorem initRows_length (nom : List NomRecord) (bnom : Rat) (base : Int) :
    (initRows nom bnom base).length = nom.length := by
  simp [initRows]

theorem initRows_get? (nom : List NomRecord) (bnom : Rat) (base : Int) (i : Nat) (n : NomRecord)
    (h : nom.get? i = some n) :
    (initRows nom bnom base).get? i =
      some (if n.jahr == base
            then ⟨n.jahr, n.umsatz_nominal, bnom, 1, 0⟩
            else ⟨n.jahr, n.umsatz_nominal, n.umsatz_nominal, 1, 0⟩) := by
  unfold initRows
  rw [List.get?_map, List.get?_map, h, Option.map_some', Option.map_some']
  rfl

theorem destatis_eq (nom : List NomRecord) (rates : List RateRecord) (base : Int) (b : NomRecord)
    (hb : nom.find? (fun r => r.jahr == base) = some b) :
    calculate_real_umsatz_with_destatis nom rates base =
      (rates.foldlM (chainStep nom) (1, initRows nom b.umsatz_nominal base)).map Prod.snd := by
  unfold calculate_real_umsatz_with_destatis
  rw [hb]

theorem destatis_error_base (nom : List NomRecord) (rates : List RateRecord) (base : Int)
    (hb : nom.find? (fun r => r.jahr == base) = none) :
    calculate_real_umsatz_with_destatis nom rates base = .error .dataError := by
  unfold calculate_real_umsatz_with_destatis
  rw [hb]

theorem destatis_ok_inv (nom : List NomRecord) (rates : List RateRecord) (base : Int)
    (b : NomRecord) (out : List DestatisRow)
    (hb : nom.find? (fun r => r.jahr == base) = some b)
    (hout : calculate_real_umsatz_with_destatis nom rates base = .ok out) :
    ∃ p, rates.foldlM (chainStep nom) (1, initRows nom b.umsatz_nominal base) = .ok (p, out) := by
  rw [destatis_eq nom rates base b hb] at hout
  cases hres : rates.foldlM (chainStep nom) (1, initRows nom b.umsatz_nominal base) with
  | error e =>
    rw [hres] at hout
    exact Except.noConfusion hout
  | ok st =>
    rw [hres] at hout
    obtain ⟨p, rows⟩ := st
    have h2 : rows = out :=
      Except.ok.inj (hout : (Except.ok rows : Except Err (List DestatisRow)) = .ok out)
    subst h2
    exact ⟨p, rfl⟩

theorem destatis_ok (nom : List NomRecord) (rates : List RateRecord) (base : Int) (b : NomRecord)
    (hb : nom.find? (fun r => r.jahr == base) = some b)
    (hall : ∀ r ∈ rates, (nom.find? (fun n => n.jahr == r.jahr)).isSome) :
    ∃ out, calculate_real_umsatz_with_destatis nom rates base = .ok out := by
  obtain ⟨st', hst'⟩ := chainLoop_ok nom rates (1, initRows nom b.umsatz_nominal base) hall
  refine ⟨st'.2, ?_⟩
  rw [destatis_eq nom rates base b hb, hst']
  rfl

theorem destatis_error_only (nom : List NomRecord) (rates : List RateRecord) (base : Int)
    (e : Err) (h : calculate_real_umsatz_with_destatis nom rates base = .error e) :
    e = .dataError := by
  unfold calculate_real_umsatz_with_destatis at h
  cases hb : nom.find? (fun r => r.jahr == base) with
  | none => rw [hb] at h; cases h; rfl
  | some b =>
    rw [hb] at h
    have h' : Except.map Prod.snd
        (List.foldlM (chainStep nom) (1, initRows nom b.umsatz_nominal base) rates)
        = .error e := h
    cases hres : List.foldlM (chainStep nom) (1, initRows nom b.umsatz_nominal base) rates with
    | error e' =>
      rw [hres] at h'
      have he : e' = e :=
        Except.error.inj (h' : (Except.error e' : Except Err (List DestatisRow)) = .error e)
      rw [← he]
      exact chainLoop_error_only nom rates _ e' hres
    | ok st =>
      rw [hres] at h'
      exact Except.noConfusion h'

theorem destatis_length (nom : List NomRecord) (rates : List RateRecord) (base : Int)
    (b : NomRecord) (out : List DestatisRow)
    (hb : nom.find? (fun r => r.jahr == base) = some b)
    (hout : calculate_real_umsatz_with_destatis nom rates base = .ok out) :
    out.length = nom.length := by
  obtain ⟨p, hres⟩ := destatis_ok_inv nom rates base b out hb hout
  have := chainLoop_length nom rates _ _ hres
  simpa [initRows_length] using this

/-! ### Bridging lemmas -/

theorem pairwise_get? {α : Type} (R : α → α → Prop) :
    ∀ (l : List α), l.Pairwise R → ∀ (i j : Nat) (a b : α), i < j →
      l.get? i = some a → l.get? j = some b → R a b := by
  intro l
  induction l with
  | nil => intro _ i j a b _ _ hb; simp at hb
  | cons x xs ih =>
    intro hp i j a b hij ha hb
    rw [List.pairwise_cons] at hp
    cases j with
    | zero => omega
    | succ j' =>
      cases i with
      | zero =>
        have hax : x = a := Option.some.inj (ha : (some x : Option α) = some a)
        subst hax
        exact hp.1 b (List.get?_mem (hb : xs.get? j' = some b))
      | succ i' =>
        exact ih hp.2 i' j' a b (by omega) ha hb

theorem map_eq_of_get? {α β γ : Type} (l₁ : List α) (l₂ : List β) (g : α → γ) (g' : β → γ)
    (hlen : l₁.length = l₂.length)
    (h : ∀ (i : Nat) (a : α) (b : β), l₁.get? i = some a → l₂.get? i = some b → g a = g' b) :
    l₁.map g = l₂.map g' := by
  apply List.ext
  intro i
  rw [List.get?_map, List.get?_map]
  cases h1 : l₁.get? i with
  | none =>
    have h2 : l₂.get? i = none := by
      rw [List.get?_eq_none] at h1 ⊢
      omega
    rw [h2]
    rfl
  | some a =>
    have hlt : i < l₂.length := by
      have := get?_lt_length l₁ i a h1
      omega
    obtain ⟨b, hb⟩ := get?_of_lt_length l₂ i hlt
    rw [hb]
    simp only [Option.map_some']
    rw [h i a b h1 hb]

theorem find?_isSome_of_mem {α : Type} (f : α → Int) (l : List α) (y : Int)
    (h : ∃ x ∈ l, f x = y) : (l.find? (fun x => f x == y)).isSome := by
  cases hf : l.find? (fun x => f x == y) with
  | some a => rfl
  | none =>
    obtain ⟨x, hx, hfx⟩ := h
    rw [List.find?_eq_none] at hf
    exact absurd (by simpa using hfx) (hf x hx)

theorem filter_nodup_single {α : Type} (f : α → Int) (y : Int) :
    ∀ (l : List α), (l.map f).Nodup →
      l.filter (fun x => f x == y) = [] ∨
      ∃ m, l.filter (fun x => f x == y) = [m] := by
  intro l
  induction l with
  | nil => intro _; exact Or.inl rfl
  | cons a as ih =>
    intro hnd
    simp only [List.map_cons, List.nodup_cons] at hnd
    by_cases ha : (f a == y) = true
    · right
      refine ⟨a, ?_⟩
      rw [List.filter_cons, if_pos ha]
      have hnil : as.filter (fun x => f x == y) = [] := by
        rw [List.filter_eq_nil]
        intro x hx hpx
        have hfx : f x = y := by simpa using hpx
        have hfa : f a = y := by simpa using ha
        exact hnd.1 (by rw [hfa, ← hfx]; exact List.mem_map_of_mem f hx)
      rw [hnil]
    · rw [List.filter_cons, if_neg ha]
      exact ih hnd.2

theorem merge_left_eq (left : List DestatisRow) (right : List LaknerCols)
    (hnd : (right.map (fun r => r.jahr)).Nodup) :
    merge_left left right =
      left.map (fun l => ⟨l, right.find? (fun r => r.jahr == l.jahr)⟩) := by
  unfold merge_left
  induction left with
  | nil => rfl
  | cons l ls ih =>
    rw [List.flatMap_cons, ih, List.map_cons]
    rcases filter_nodup_single (fun r => r.jahr) l.jahr right hnd with h1 | ⟨m, hm⟩
    · have hfind : right.find? (fun r => r.jahr == l.jahr) = none := by
        rw [find?_eq_filter_head?, h1]
        rfl
      rw [h1, hfind]
      rfl
    · have hfind : right.find? (fun r => r.jahr == l.jahr) = some m := by
        rw [find?_eq_filter_head?, hm]
        rfl
      rw [hm, hfind]
      rfl

theorem foldl_add_rates : ∀ (rates : List RateRecord) (a : Rat),
    rates.foldl (fun a r => a + r.inflation_rate_jahr) a
      = a + (rates.map (fun r => r.inflation_rate_jahr)).sum
  | [], a => by simp
  | r :: rs, a => by
    rw [List.foldl_cons, foldl_add_rates rs (a + r.inflation_rate_jahr),
      List.map_cons, List.sum_cons]
    ring

theorem initRows_get?_exists (nom : List NomRecord) (bnom : Rat) (base : Int) (i : Nat)
    (n : NomRecord) (h : nom.get? i = some n) :
    ∃ r0, (initRows nom bnom base).get? i = some r0 ∧ r0.jahr = n.jahr ∧
      r0.umsatz_nominal = n.umsatz_nominal ∧ r0.preisindex_destatis = 1 ∧
      r0.inflation_kumulativ_destatis = 0 ∧
      r0.umsatz_real_destatis = (if n.jahr == base then bnom else n.umsatz_nominal) := by
  by_cases hb : (n.jahr == base) = true
  · rw [initRows_get? nom bnom base i n h, if_pos hb]
    exact ⟨_, rfl, rfl, rfl, rfl, rfl, (if_pos hb).symm⟩
  · rw [initRows_get? nom bnom base i n h, if_neg hb]
    exact ⟨_, rfl, rfl, rfl, rfl, rfl, (if_neg hb).symm⟩

/-- Positional correspondence between the output of the chained
reconstruction and its nominal input: year and nominal revenue carry
over row by row. -/
theorem destatis_get?_pair (nom : List NomRecord) (rates : List RateRecord) (base : Int)
    (b : NomRecord) (out : List DestatisRow)
    (hb : nom.find? (fun r => r.jahr == base) = some b)
    (hout : calculate_real_umsatz_with_destatis nom rates base = .ok out)
    (i : Nat) (n : NomRecord) (hn : nom.get? i = some n) :
    ∃ row, out.get? i = some row ∧ row.jahr = n.jahr ∧
      row.umsatz_nominal = n.umsatz_nominal := by
  obtain ⟨p, hres⟩ := destatis_ok_inv nom rates base b out hb hout
  obtain ⟨r0, hr0, hj, hnom, _, _, _⟩ := initRows_get?_exists nom b.umsatz_nominal base i n hn
  obtain ⟨row, h1, h2, h3⟩ := chainLoop_get? nom rates _ _ i r0 hres hr0
  exact ⟨row, h1, by rw [h2, hj], by rw [h3, hnom]⟩

/-- Inverse shape lemma: every row of the output of
`calculate_inflation_rates` is the derivation of the input row at the
same position. -/
theorem calc_rates_get?_inv (df : List Row) (base_year : Int) (b : Row)
    (hf : df.find? (fun r => r.jahr == base_year) = some b)
    (out : List Row) (hout : calculate_inflation_rates df base_year = .ok out)
    (i : Nat) (row : Row) (h : out.get? i = some row) :
    ∃ r ann, df.get? i = some r ∧
      (pctChange (df.map (fun s =>
        (s.umsatz_nominal / s.umsatz_real) / (b.umsatz_nominal / b.umsatz_real)))).get? i
        = some ann ∧
      row = deriveRow (b.umsatz_nominal / b.umsatz_real) r ann := by
  have hlen := calc_rates_length df base_year out hout
  have hlt : i < df.length := by
    have := get?_lt_length out i row h
    omega
  obtain ⟨r, hr⟩ := get?_of_lt_length df i hlt
  obtain ⟨ann, hann, hrow⟩ := calc_rates_get? df base_year b hf out hout i r hr
  exact ⟨r, ann, hr, hann, Option.some.inj (h.symm.trans hrow)⟩

/-- Companion: the price-index column of the mapped list, positionally. -/
theorem pis_get? (df : List Row) (br : Rat) (i : Nat) (r : Row) (h : df.get? i = some r) :
    (df.map (fun s => (s.umsatz_nominal / s.umsatz_real) / br)).get? i
      = some ((r.umsatz_nominal / r.umsatz_real) / br) := by
  rw [List.get?_map, h, Option.map_some']

/-! ### Claim C4 -/

/-- C4 (amended): the implicit-index calculation fails with `DataError`
when the series contains no record for the base year, and the chained
reconstruction fails with `DataError` when a year referenced by a rate
record is absent from the nominal series; both failures are the only
failures either function can produce.  A record with zero real revenue
does NOT make the implicit calculation fail: numpy float division by
zero returns `inf`/`nan` without raising, so no `DivisionError` is ever
raised. -/
theorem c4_error_handling :
    (∀ (df : List Row) (base_year : Int),
      (∀ r ∈ df, r.jahr ≠ base_year) →
      calculate_inflation_rates df base_year = .error .dataError) ∧
    (∀ (df : List Row) (base_year : Int) (e : Err),
      calculate_inflation_rates df base_year = .error e → e = .dataError) ∧
    (∀ (nom : List NomRecord) (rates : List RateRecord) (base_year : Int),
      (∃ r ∈ rates, ∀ n ∈ nom, n.jahr ≠ r.jahr) →
      calculate_real_umsatz_with_destatis nom rates base_year = .error .dataError) ∧
    (∀ (nom : List NomRecord) (rates : List RateRecord) (base_year : Int) (e : Err),
      calculate_real_umsatz_with_destatis nom rates base_year = .error e →
      e = .dataError) := by
  refine ⟨?_, calc_rates_error_only, ?_, destatis_error_only⟩
  · intro df base_year hnone
    apply calc_rates_error
    rw [List.find?_eq_none]
    intro r hr
    simpa using hnone r hr
  · rintro nom rates base_year ⟨r, hr, hmiss⟩
    cases hb : nom.find? (fun x => x.jahr == base_year) with
    | none => exact destatis_error_base nom rates base_year hb
    | some b =>
      rw [destatis_eq nom rates base_year b hb,
        chainLoop_error_of_missing nom rates _
          ⟨r, hr, by
            rw [List.find?_eq_none]
            intro n hn
            simpa using hmiss n hn⟩]
      rfl

/-- C4 is false in its `DivisionError` part: with a record whose real
revenue is zero, `calculate_inflation_rates` succeeds instead of
failing (numpy float division by zero yields `inf`/`nan` and raises
nothing). -/
theorem c4_counterexample :
    (calculate_inflation_rates
      [⟨2020, 10, 2, none, none, none, none⟩, ⟨2021, 8, 0, none, none, none, none⟩]
      2020).isOk = true ∧
    calculate_inflation_rates
      [⟨2020, 10, 2, none, none, none, none⟩, ⟨2021, 8, 0, none, none, none, none⟩]
      2020 ≠ .error .divisionError := by
  constructor
  · norm_num [calculate_inflation_rates, List.find?, Except.isOk, Except.toBool]
  · intro h
    have h2 := calc_rates_error_only _ 2020 .divisionError h
    simp at h2

/-- Witness for C4: concrete failing inputs for both `DataError`
cases. -/
theorem c4_witness :
    calculate_inflation_rates [⟨2021, 5, 4, none, none, none, none⟩] 2020
      = .error .dataError ∧
    calculate_real_umsatz_with_destatis [⟨2020, 10⟩] [⟨2022, 1⟩] 2020
      = .error .dataError :=
  ⟨c4_error_handling.1 _ 2020 (by decide),
   c4_error_handling.2.2.1 _ _ 2020
     ⟨⟨2022, 1⟩, List.mem_cons_self _ _, by decide⟩⟩

/-! ### Claim C9 -/

/-- C9 (amended): the `(jahr, umsatz_nominal, umsatz_real)` columns of
the caller's frame are never modified — their projection carries over
unchanged into the result of `calculate_inflation_rates` — and the
chained reconstruction preserves `(jahr, umsatz_nominal)` of its copied
input frame row by row.  The caller's frame as a whole is however not
unchanged: `calculate_inflation_rates` assigns its four derived columns
on the frame it was passed (pandas column assignment mutates in place)
and returns that same frame. -/
theorem c9_projection_preserved :
    (∀ (df : List Row) (base_year : Int) (out : List Row),
      calculate_inflation_rates df base_year = .ok out →
      out.map (fun r => (r.jahr, r.umsatz_nominal, r.umsatz_real)) =
        df.map (fun r => (r.jahr, r.umsatz_nominal, r.umsatz_real))) ∧
    (∀ (nom : List NomRecord) (rates : List RateRecord) (base_year : Int)
        (out : List DestatisRow),
      calculate_real_umsatz_with_destatis nom rates base_year = .ok out →
      out.map (fun r => (r.jahr, r.umsatz_nominal)) =
        nom.map (fun n => (n.jahr, n.umsatz_nominal))) := by
  constructor
  · intro df base_year out hout
    cases hf : df.find? (fun r => r.jahr == base_year) with
    | none =>
      rw [calc_rates_error df base_year hf] at hout
      exact Except.noConfusion hout
    | some b =>
      apply map_eq_of_get?
      · exact calc_rates_length df base_year out hout
      · intro i a r h1 h2
        obtain ⟨ann, _, hrow⟩ := calc_rates_get? df base_year b hf out hout i r h2
        have ha : a = deriveRow (b.umsatz_nominal / b.umsatz_real) r ann :=
          Option.some.inj (h1.symm.trans hrow)
        rw [ha]
        rfl
  · intro nom rates base_year out hout
    cases hf : nom.find? (fun r => r.jahr == base_year) with
    | none =>
      rw [destatis_error_base nom rates base_year hf] at hout
      exact Except.noConfusion hout
    | some b =>
      apply map_eq_of_get?
      · exact destatis_length nom rates base_year b out hf hout
      · intro i a n h1 h2
        obtain ⟨row, hr1, hr2, hr3⟩ :=
          destatis_get?_pair nom rates base_year b out hf hout i n h2
        have ha : a = row := Option.some.inj (h1.symm.trans hr1)
        rw [ha, hr2, hr3]

/-- C9 is false as stated: the frame returned by
`calculate_inflation_rates` — which is the caller's own frame, mutated
in place by the pandas column assignments — differs from the frame the
caller passed in: the four derived columns have appeared. -/
theorem c9_counterexample :
    calculate_inflation_rates [⟨2022, 7, 7, none, none, none, none⟩] 2022 =
      .ok [⟨2022, 7, 7, some 1, some 1, some 0, none⟩] ∧
    [(⟨2022, 7, 7, some 1, some 1, some 0, none⟩ : Row)] ≠
      [(⟨2022, 7, 7, none, none, none, none⟩ : Row)] := by
  constructor
  · norm_num [calculate_inflation_rates, List.find?, pctChange, pctChangeGo, deriveRow]
  · simp

/-- Witness for C9: the projection preservation evaluated at a concrete
call. -/
theorem c9_witness :
    calculate_inflation_rates [⟨2020, 10, 10, none, none, none, none⟩] 2020 =
      .ok [⟨2020, 10, 10, some 1, some 1, some 0, none⟩] ∧
    ([(⟨2020, 10, 10, some 1, some 1, some 0, none⟩ : Row)]).map
        (fun r => (r.jahr, r.umsatz_nominal, r.umsatz_real)) =
      ([(⟨2020, 10, 10, none, none, none, none⟩ : Row)]).map
        (fun r => (r.jahr, r.umsatz_nominal, r.umsatz_real)) := by
  have h : calculate_inflation_rates [⟨2020, 10, 10, none, none, none, none⟩] 2020 =
      .ok [⟨2020, 10, 10, some 1, some 1, some 0, none⟩] := by
    norm_num [calculate_inflation_rates, List.find?, pctChange, pctChangeGo, deriveRow]
  exact ⟨h, c9_projection_preserved.1 _ 2020 _ h⟩

/-! ### Claim C10 -/

/-- C10: when the input series has more than one record for the base
year, `calculate_inflation_rates` does not fail; the base ratio is
taken from the first base-year record in input order (there is no
earlier base-year row), and every row's price index is its
nominal/real ratio divided by that first record's ratio. -/
theorem c10_first_base_record (df : List Row) (base_year : Int)
    (hmany : 2 ≤ (df.filter (fun r => r.jahr == base_year)).length) :
    ∃ b out, calculate_inflation_rates df base_year = .ok out ∧
      df.find? (fun r => r.jahr == base_year) = some b ∧
      (∃ i, df.get? i = some b ∧ b.jahr = base_year ∧
        ∀ j, j < i → ∀ r, df.get? j = some r → r.jahr ≠ base_year) ∧
      (∀ i r, df.get? i = some r →
        ∃ row, out.get? i = some row ∧ row.jahr = r.jahr ∧
          row.preisindex = some ((r.umsatz_nominal / r.umsatz_real) /
            (b.umsatz_nominal / b.umsatz_real))) := by
  cases hf : df.find? (fun r => r.jahr == base_year) with
  | none =>
    exfalso
    rw [find?_eq_filter_head?, List.head?_eq_none_iff] at hf
    rw [hf] at hmany
    simp at hmany
  | some b =>
    refine ⟨b, _, calc_rates_eq df base_year b hf, rfl, ?_, ?_⟩
    · obtain ⟨i, hget, hp, hbefore⟩ := find?_first _ df b hf
      refine ⟨i, hget, by simpa using hp, ?_⟩
      intro j hj r hr
      simpa using hbefore j hj r hr
    · intro i r hr
      obtain ⟨ann, _, hrow⟩ := calc_rates_get? df base_year b hf _
        (calc_rates_eq df base_year b hf) i r hr
      exact ⟨_, hrow, rfl, rfl⟩

/-- Witness for C10: two records for the base year 2020; the
calculation succeeds and anchors on the first of them. -/
theorem c10_witness :
    2 ≤ (([⟨2020, 10, 5, none, none, none, none⟩,
           ⟨2020, 30, 10, none, none, none, none⟩] : List Row).filter
          (fun r => r.jahr == (2020 : Int))).length ∧
    ∃ b out,
      calculate_inflation_rates
        [⟨2020, 10, 5, none, none, none, none⟩,
         ⟨2020, 30, 10, none, none, none, none⟩] 2020 = .ok out ∧
      ([⟨2020, 10, 5, none, none, none, none⟩,
        ⟨2020, 30, 10, none, none, none, none⟩] : List Row).find?
          (fun r => r.jahr == (2020 : Int)) = some b ∧
      (∃ i, ([⟨2020, 10, 5, none, none, none, none⟩,
              ⟨2020, 30, 10, none, none, none, none⟩] : List Row).get? i = some b ∧
        b.jahr = 2020 ∧
        ∀ j, j < i → ∀ r,
          ([⟨2020, 10, 5, none, none, none, none⟩,
            ⟨2020, 30, 10, none, none, none, none⟩] : List Row).get? j = some r →
          r.jahr ≠ 2020) ∧
      (∀ i r,
        ([⟨2020, 10, 5, none, none, none, none⟩,
          ⟨2020, 30, 10, none, none, none, none⟩] : List Row).get? i = some r →
        ∃ row, out.get? i = some row ∧ row.jahr = r.jahr ∧
          row.preisindex = some ((r.umsatz_nominal / r.umsatz_real) /
            (b.umsatz_nominal / b.umsatz_real))) :=
  ⟨by decide, c10_first_base_record _ 2020 (by decide)⟩

/-! ### Claim C1 -/

/-- C1 is false as stated at this input: at base year 2020 with nominal
revenue 0 (and nonzero real revenue 5) the implicit price index is not
1 (the code computes 0/0, i.e. `nan` in numpy, 0 in exact arithmetic —
either way not 1); and a rate record for the base year makes the
chained reconstruction overwrite the base row, so its chained price
index is 2 ≠ 1 and its reconstructed real revenue 5 ≠ nominal 10. -/
theorem c1_counterexample :
    calculate_inflation_rates [⟨2020, 0, 5, none, none, none, none⟩] 2020 =
      .ok [⟨2020, 0, 5, some 0, some 0, some (-100), none⟩] ∧
    some (0 : Rat) ≠ some (1 : Rat) ∧
    calculate_real_umsatz_with_destatis [⟨2020, 10⟩] [⟨2020, 1⟩] 2020 =
      .ok [⟨2020, 10, 5, 2, 100⟩] ∧
    (2 : Rat) ≠ 1 ∧ (5 : Rat) ≠ 10 := by
  refine ⟨?_, by norm_num, ?_, by norm_num, by norm_num⟩
  · norm_num [calculate_inflation_rates, List.find?, pctChange, pctChangeGo, deriveRow]
  · norm_num [calculate_real_umsatz_with_destatis, List.find?, initRows, initDestatisRow,
      List.foldlM, chainStep, applyRate, Except.map]

/-- C1 (amended): for a series with exactly one base-year record whose
nominal and real revenues are both nonzero, the implicit derivation has
price index exactly 1 and cumulative inflation exactly 0 at the base
year; and whenever the rate sequence contains no record for the base
year (and references only years present in the nominal series), the
chained reconstruction has chained price index 1 and reconstructed real
revenue equal to the base year's nominal revenue at the base year. -/
theorem c1_base_year_anchoring
    (df : List Row) (base_year : Int) (b : Row)
    (hone : df.filter (fun r => r.jahr == base_year) = [b])
    (hnn : b.umsatz_nominal ≠ 0) (hnr : b.umsatz_real ≠ 0)
    (nom : List NomRecord) (rates : List RateRecord) (nb : NomRecord)
    (hnb : nom.find? (fun r => r.jahr == base_year) = some nb)
    (hrates : ∀ r ∈ rates, ∃ n ∈ nom, n.jahr = r.jahr)
    (hnobase : ∀ r ∈ rates, r.jahr ≠ base_year) :
    (∃ out, calculate_inflation_rates df base_year = .ok out ∧
      (∃ row ∈ out, row.jahr = base_year) ∧
      ∀ row ∈ out, row.jahr = base_year →
        row.preisindex = some 1 ∧ row.inflation_kumulativ = some 0) ∧
    (∃ outc, calculate_real_umsatz_with_destatis nom rates base_year = .ok outc ∧
      (∃ row ∈ outc, row.jahr = base_year) ∧
      ∀ row ∈ outc, row.jahr = base_year →
        row.preisindex_destatis = 1 ∧ row.inflation_kumulativ_destatis = 0 ∧
        row.umsatz_real_destatis = nb.umsatz_nominal) := by
  have hbr : b.umsatz_nominal / b.umsatz_real ≠ 0 := div_ne_zero hnn hnr
  have hf : df.find? (fun r => r.jahr == base_year) = some b := by
    rw [find?_eq_filter_head?, hone]
    rfl
  have hbase_mem : base_year ∉ rates.map (fun r => r.jahr) := by
    intro hmem
    obtain ⟨r, hr, hrj⟩ := List.mem_map.mp hmem
    exact hnobase r hr hrj
  constructor
  · refine ⟨_, calc_rates_eq df base_year b hf, ?_, ?_⟩
    · -- the base row exists in the output
      obtain ⟨i, hget, hp, _⟩ := find?_first _ df b hf
      obtain ⟨ann, _, hrow⟩ := calc_rates_get? df base_year b hf _
        (calc_rates_eq df base_year b hf) i b hget
      refine ⟨_, List.get?_mem hrow, ?_⟩
      simpa using hp
    · intro row hrow hjahr
      obtain ⟨i, hi⟩ := List.mem_iff_get?.mp hrow
      obtain ⟨r, ann, hr, _, hshape⟩ := calc_rates_get?_inv df base_year b hf _
        (calc_rates_eq df base_year b hf) i row hi
      have hrb : r = b := by
        have hrj : r.jahr = base_year := by
          rw [hshape] at hjahr
          simpa using hjahr
        have hmem : r ∈ df.filter (fun r => r.jahr == base_year) :=
          List.mem_filter.mpr ⟨List.get?_mem hr, by simpa using hrj⟩
        rw [hone] at hmem
        simpa using hmem
      subst hrb
      rw [hshape]
      constructor
      · rw [deriveRow_preisindex, div_self hbr]
      · rw [deriveRow_kumulativ, div_self hbr]
        norm_num
  · have hall : ∀ r ∈ rates, (nom.find? (fun n => n.jahr == r.jahr)).isSome := by
      intro r hr
      exact find?_isSome_of_mem (fun n => n.jahr) nom r.jahr (hrates r hr)
    obtain ⟨outc, houtc⟩ := destatis_ok nom rates base_year nb hnb hall
    obtain ⟨p, hres⟩ := destatis_ok_inv nom rates base_year nb outc hnb houtc
    refine ⟨outc, houtc, ?_, ?_⟩
    · obtain ⟨i, hget, hp, _⟩ := find?_first _ nom nb hnb
      have hpj : nb.jahr = base_year := by simpa using hp
      obtain ⟨r0, hr0, hj0, _, _, _⟩ :=
        initRows_get?_exists nom nb.umsatz_nominal base_year i nb hget
      have huntouched := chainLoop_get?_untouched nom rates _ _ i r0 hres hr0
        (by rw [hj0, hpj]; exact hbase_mem)
      exact ⟨r0, List.get?_mem huntouched, by rw [hj0, hpj]⟩
    · intro row hrow hjahr
      obtain ⟨i, hi⟩ := List.mem_iff_get?.mp hrow
      have hlen := destatis_length nom rates base_year nb outc hnb houtc
      have hlt : i < nom.length := by
        have := get?_lt_length outc i row hi
        omega
      obtain ⟨n, hn⟩ := get?_of_lt_length nom i hlt
      obtain ⟨r0, hr0, hj0, hnom0, hpi0, hkum0, hreal0⟩ :=
        initRows_get?_exists nom nb.umsatz_nominal base_year i n hn
      obtain ⟨row', hrow', hj', _⟩ := chainLoop_get? nom rates _ _ i r0 hres hr0
      have heq : row' = row := Option.some.inj (hrow'.symm.trans hi)
      have hnj : n.jahr = base_year := by
        rw [← hj0, ← hj', heq]
        exact hjahr
      have huntouched := chainLoop_get?_untouched nom rates _ _ i r0 hres hr0
        (by rw [hj0, hnj]; exact hbase_mem)
      have heq2 : row = r0 := Option.some.inj (hi.symm.trans huntouched)
      subst heq2
      refine ⟨hpi0, hkum0, ?_⟩
      rw [hreal0, if_pos (by simpa using hnj)]

/-- Witness for C1 (amended): base year 2020 with nominal 10 / real 10,
one later year, one rate record for 2021 only. -/
theorem c1_witness :
    (([⟨2020, 10, 10, none, none, none, none⟩,
       ⟨2021, 11, 10, none, none, none, none⟩] : List Row).filter
        (fun r => r.jahr == (2020 : Int))) = [⟨2020, 10, 10, none, none, none, none⟩] ∧
    (∃ out, calculate_inflation_rates
        [⟨2020, 10, 10, none, none, none, none⟩,
         ⟨2021, 11, 10, none, none, none, none⟩] 2020 = .ok out ∧
      (∃ row ∈ out, row.jahr = 2020) ∧
      ∀ row ∈ out, row.jahr = 2020 →
        row.preisindex = some 1 ∧ row.inflation_kumulativ = some 0) ∧
    (∃ outc, calculate_real_umsatz_with_destatis
        [⟨2020, 10⟩, ⟨2021, 11⟩] [⟨2021, 1/10⟩] 2020 = .ok outc ∧
      (∃ row ∈ outc, row.jahr = 2020) ∧
      ∀ row ∈ outc, row.jahr = 2020 →
        row.preisindex_destatis = 1 ∧ row.inflation_kumulativ_destatis = 0 ∧
        row.umsatz_real_destatis = (⟨2020, 10⟩ : NomRecord).umsatz_nominal) := by
  have hone : (([⟨2020, 10, 10, none, none, none, none⟩,
      ⟨2021, 11, 10, none, none, none, none⟩] : List Row).filter
        (fun r => r.jahr == (2020 : Int))) = [⟨2020, 10, 10, none, none, none, none⟩] := by
    rw [List.filter_cons, if_pos (by decide), List.filter_cons, if_neg (by decide)]
    rfl
  have h := c1_base_year_anchoring
    [⟨2020, 10, 10, none, none, none, none⟩, ⟨2021, 11, 10, none, none, none, none⟩]
    2020 ⟨2020, 10, 10, none, none, none, none⟩ hone (by norm_num) (by norm_num)
    [⟨2020, 10⟩, ⟨2021, 11⟩] [⟨2021, 1/10⟩] ⟨2020, 10⟩ rfl
    (by intro r hr; exact ⟨⟨2021, 11⟩, by simp [List.mem_cons], by
      rcases List.mem_cons.mp hr with h1 | h1
      · rw [h1]
      · simp at h1⟩)
    (by intro r hr; rcases List.mem_cons.mp hr with h1 | h1
        · rw [h1]; decide
        · simp at h1)
  exact ⟨hone, h.1, h.2⟩

/-! ### Claim C3 -/

/-- C3 is false as stated: a rate record for the base year 2020 IS used
by the loop — the base row's chained price index becomes 3/2 (not 1)
and its reconstructed real revenue 8 (not its nominal 12). -/
theorem c3_counterexample :
    calculate_real_umsatz_with_destatis [⟨2020, 12⟩] [⟨2020, 1/2⟩] 2020 =
      .ok [⟨2020, 12, 8, 3/2, 50⟩] ∧
    (3/2 : Rat) ≠ 1 ∧ (8 : Rat) ≠ 12 := by
  refine ⟨?_, by norm_num, by norm_num⟩
  norm_num [calculate_real_umsatz_with_destatis, List.find?, initRows, initDestatisRow,
    List.foldlM, chainStep, applyRate, Except.map]

/-- C3 (amended): a rate record for the base year is processed like any
other record: it multiplies into the running price index, and the base
year's row is overwritten with the running product up to and including
that record — the base year stays pinned at price index 1 only when no
rate record for it exists. -/
theorem c3_base_year_rate_applied (nom : List NomRecord) (rates : List RateRecord)
    (base_year : Int) (nb : NomRecord) (k : Nat) (rk : RateRecord)
    (hnb : nom.find? (fun r => r.jahr == base_year) = some nb)
    (hrates : ∀ r ∈ rates, ∃ n ∈ nom, n.jahr = r.jahr)
    (hnd : (rates.map (fun r => r.jahr)).Nodup)
    (hk : rates.get? k = some rk) (hbase : rk.jahr = base_year) :
    ∃ out, calculate_real_umsatz_with_destatis nom rates base_year = .ok out ∧
      (∃ row ∈ out, row.jahr = base_year) ∧
      ∀ row ∈ out, row.jahr = base_year →
        row.preisindex_destatis = prodRates (rates.take (k + 1)) ∧
        row.umsatz_real_destatis = nb.umsatz_nominal / prodRates (rates.take (k + 1)) := by
  have hall : ∀ r ∈ rates, (nom.find? (fun n => n.jahr == r.jahr)).isSome :=
    fun r hr => find?_isSome_of_mem (fun n => n.jahr) nom r.jahr (hrates r hr)
  obtain ⟨out, hout⟩ := destatis_ok nom rates base_year nb hnb hall
  obtain ⟨p, hres⟩ := destatis_ok_inv nom rates base_year nb out hnb hout
  have hnr : nom.find? (fun n => n.jahr == rk.jahr) = some nb := by
    rw [hbase]
    exact hnb
  refine ⟨out, hout, ?_, ?_⟩
  · obtain ⟨i, hget, hp, _⟩ := find?_first _ nom nb hnb
    obtain ⟨row, h1, h2, _⟩ := destatis_get?_pair nom rates base_year nb out hnb hout i nb hget
    exact ⟨row, List.get?_mem h1, by rw [h2]; simpa using hp⟩
  · intro row hrow hjahr
    obtain ⟨i, hi⟩ := List.mem_iff_get?.mp hrow
    have hlen := destatis_length nom rates base_year nb out hnb hout
    have hlt : i < nom.length := by
      have := get?_lt_length out i row hi
      omega
    obtain ⟨n, hn⟩ := get?_of_lt_length nom i hlt
    obtain ⟨r0, hr0, hj0, _, _, _⟩ :=
      initRows_get?_exists nom nb.umsatz_nominal base_year i n hn
    obtain ⟨row', hrow', hj', _⟩ := chainLoop_get? nom rates _ _ i r0 hres hr0
    have heq : row' = row := Option.some.inj (hrow'.symm.trans hi)
    have hr0j : r0.jahr = rk.jahr := by
      rw [hbase, ← hjahr, ← heq, hj']
    have hw := chainLoop_get?_written nom rates 1 _ _ k rk i r0 nb hnd hres hk hr0 hr0j hnr
    have heq2 := Option.some.inj (hi.symm.trans hw)
    refine ⟨?_, ?_⟩
    · rw [heq2]
      show (1 : Rat) * prodRates (rates.take (k + 1)) = prodRates (rates.take (k + 1))
      rw [one_mul]
    · rw [heq2]
      show nb.umsatz_nominal / ((1 : Rat) * prodRates (rates.take (k + 1)))
        = nb.umsatz_nominal / prodRates (rates.take (k + 1))
      rw [one_mul]

/-- Witness for C3 (amended): one nominal year 2020, one rate record
for the base year itself. -/
theorem c3_witness :
    (([⟨2020, 1⟩] : List RateRecord).map (fun r => r.jahr)).Nodup ∧
    ∃ out, calculate_real_umsatz_with_destatis [⟨2020, 10⟩] [⟨2020, 1⟩] 2020 = .ok out ∧
      (∃ row ∈ out, row.jahr = 2020) ∧
      ∀ row ∈ out, row.jahr = 2020 →
        row.preisindex_destatis = prodRates (([⟨2020, 1⟩] : List RateRecord).take (0 + 1)) ∧
        row.umsatz_real_destatis =
          (⟨2020, 10⟩ : NomRecord).umsatz_nominal /
            prodRates (([⟨2020, 1⟩] : List RateRecord).take (0 + 1)) :=
  ⟨by decide, c3_base_year_rate_applied _ _ 2020 ⟨2020, 10⟩ 0 ⟨2020, 1⟩ rfl
    (by
      intro r hr
      refine ⟨⟨2020, 10⟩, List.mem_cons_self _ _, ?_⟩
      rcases List.mem_cons.mp hr with h1 | h1
      · rw [h1]
      · simp at h1)
    (by decide) rfl rfl⟩

/-! ### Claim C5 -/

/-- C5 is false as stated: `calculate_inflation_rates` does not sort.
With the input in descending year order, the annual inflation of the
series' earliest year (2020) is defined (−50), not undefined — the
`NaN` lands on the first row (2021), which is not the earliest year. -/
theorem c5_counterexample :
    calculate_inflation_rates
      [⟨2021, 22, 11, none, none, none, none⟩, ⟨2020, 10, 10, none, none, none, none⟩]
      2020 =
      .ok [⟨2021, 22, 11, some 2, some 2, some 100, none⟩,
           ⟨2020, 10, 10, some 1, some 1, some 0, some (-50)⟩] ∧
    some ((-50 : Rat)) ≠ (none : Option Rat) := by
  constructor
  · have h1 : ((2021 : Int) == (2020 : Int)) = false := by decide
    norm_num [calculate_inflation_rates, List.find?, pctChange, pctChangeGo, deriveRow, h1]
  · simp

/-- C5 (amended): the calculation does not sort; `pct_change` runs over
the input's existing row order.  The first row's annual inflation is
undefined and every later row's is
`(price_index(row) / price_index(previous row) - 1) * 100`.  When the
input is already sorted ascending by year — as the program's loader
produces it — the first row is the unique earliest year, so the claim's
reading holds for sorted inputs. -/
theorem c5_annual_inflation (df : List Row) (base_year : Int) (b : Row)
    (hfind : df.find? (fun r => r.jahr == base_year) = some b)
    (hsorted : df.Pairwise (fun r s => r.jahr < s.jahr)) :
    ∃ out, calculate_inflation_rates df base_year = .ok out ∧
      (∀ r0, out.get? 0 = some r0 →
        r0.inflation_jaehrlich = none ∧ ∀ r' ∈ out, r0.jahr ≤ r'.jahr) ∧
      (∀ i p q, out.get? i = some p → out.get? (i + 1) = some q →
        ∃ pip piq, p.preisindex = some pip ∧ q.preisindex = some piq ∧
          q.inflation_jaehrlich = some ((piq / pip - 1) * 100)) ∧
      (∀ j r', j ≠ 0 → out.get? j = some r' → r'.inflation_jaehrlich ≠ none) := by
  have hout := calc_rates_eq df base_year b hfind
  refine ⟨_, hout, ?_, ?_, ?_⟩
  · intro r0 h0
    obtain ⟨a0, ann0, ha0, hann0, hshape0⟩ :=
      calc_rates_get?_inv df base_year b hfind _ hout 0 r0 h0
    have hann0' : ann0 = none := by
      have hz := pctChange_get?_zero _ ((a0.umsatz_nominal / a0.umsatz_real) /
        (b.umsatz_nominal / b.umsatz_real)) (pis_get? df _ 0 a0 ha0)
      exact Option.some.inj (hann0.symm.trans hz)
    constructor
    · rw [hshape0, deriveRow_jaehrlich, hann0']
    · intro r' hr'
      obtain ⟨j, hj⟩ := List.mem_iff_get?.mp hr'
      obtain ⟨aj, annj, haj, _, hshapej⟩ :=
        calc_rates_get?_inv df base_year b hfind _ hout j r' hj
      cases j with
      | zero =>
        have hrr : r' = r0 := Option.some.inj (hj.symm.trans h0)
        rw [hrr]
      | succ j' =>
        have hlt := pairwise_get? _ df hsorted 0 (j' + 1) a0 aj (by omega) ha0 haj
        rw [hshape0, hshapej]
        simpa using le_of_lt hlt
  · intro i p q hp hq
    obtain ⟨a, anna, ha, _, hsa⟩ :=
      calc_rates_get?_inv df base_year b hfind _ hout i p hp
    obtain ⟨a', anna', ha', hanna', hsa'⟩ :=
      calc_rates_get?_inv df base_year b hfind _ hout (i + 1) q hq
    have hpc := pctChange_get?_succ _ i
      ((a'.umsatz_nominal / a'.umsatz_real) / (b.umsatz_nominal / b.umsatz_real))
      ((a.umsatz_nominal / a.umsatz_real) / (b.umsatz_nominal / b.umsatz_real))
      (pis_get? df _ (i + 1) a' ha') (pis_get? df _ i a ha)
    have hann := Option.some.inj (hanna'.symm.trans hpc)
    refine ⟨(a.umsatz_nominal / a.umsatz_real) / (b.umsatz_nominal / b.umsatz_real),
      (a'.umsatz_nominal / a'.umsatz_real) / (b.umsatz_nominal / b.umsatz_real), ?_, ?_, ?_⟩
    · rw [hsa, deriveRow_preisindex]
    · rw [hsa', deriveRow_preisindex]
    · rw [hsa', deriveRow_jaehrlich, hann]
  · intro j r' hj0 hjr
    cases j with
    | zero => exact absurd rfl hj0
    | succ j' =>
      obtain ⟨a', anna', ha', hanna', hsa'⟩ :=
        calc_rates_get?_inv df base_year b hfind _ hout (j' + 1) r' hjr
      have hlt : j' < df.length := by
        have := get?_lt_length df (j' + 1) a' ha'
        omega
      obtain ⟨a, ha⟩ := get?_of_lt_length df j' hlt
      have hpc := pctChange_get?_succ _ j'
        ((a'.umsatz_nominal / a'.umsatz_real) / (b.umsatz_nominal / b.umsatz_real))
        ((a.umsatz_nominal / a.umsatz_real) / (b.umsatz_nominal / b.umsatz_real))
        (pis_get? df _ (j' + 1) a' ha') (pis_get? df _ j' a ha)
      have hann := Option.some.inj (hanna'.symm.trans hpc)
      rw [hsa', deriveRow_jaehrlich, hann]
      simp

/-- Witness for C5 (amended): ascending two-year series anchored at
2020. -/
theorem c5_witness :
    ([⟨2020, 10, 10, none, none, none, none⟩,
      ⟨2021, 11, 10, none, none, none, none⟩] : List Row).Pairwise
        (fun r s => r.jahr < s.jahr) ∧
    ∃ out, calculate_inflation_rates
        [⟨2020, 10, 10, none, none, none, none⟩,
         ⟨2021, 11, 10, none, none, none, none⟩] 2020 = .ok out ∧
      (∀ r0, out.get? 0 = some r0 →
        r0.inflation_jaehrlich = none ∧ ∀ r' ∈ out, r0.jahr ≤ r'.jahr) ∧
      (∀ i p q, out.get? i = some p → out.get? (i + 1) = some q →
        ∃ pip piq, p.preisindex = some pip ∧ q.preisindex = some piq ∧
          q.inflation_jaehrlich = some ((piq / pip - 1) * 100)) ∧
      (∀ j r', j ≠ 0 → out.get? j = some r' → r'.inflation_jaehrlich ≠ none) := by
  have hs : ([⟨2020, 10, 10, none, none, none, none⟩,
      ⟨2021, 11, 10, none, none, none, none⟩] : List Row).Pairwise
        (fun r s => r.jahr < s.jahr) := by
    refine List.Pairwise.cons ?_ (List.pairwise_singleton _ _)
    intro r hr
    rcases List.mem_cons.mp hr with h1 | h1
    · rw [h1]; decide
    · simp at h1
  exact ⟨hs, c5_annual_inflation _ 2020 ⟨2020, 10, 10, none, none, none, none⟩ rfl hs⟩

/-! ### Claim C2 -/

/-- C2: for an ascending rate sequence whose years all occur in the
nominal series (base year present as well), the chained loop's price
index after processing all records is the product `Π (1 + rate_i)`, and
the output row of each rate-record year `y_k` carries the partial
product `Π_{i ≤ k} (1 + rate_i)` as its price index, the year's nominal
revenue divided by that partial product as its reconstructed real
revenue, and `(partial product − 1) · 100` as its cumulative
inflation. -/
theorem c2_chained_index (nom : List NomRecord) (rates : List RateRecord) (base_year : Int)
    (nb : NomRecord)
    (hnb : nom.find? (fun r => r.jahr == base_year) = some nb)
    (hsorted : rates.Pairwise (fun a b => a.jahr < b.jahr))
    (hrates : ∀ r ∈ rates, ∃ n ∈ nom, n.jahr = r.jahr) :
    ∃ out p, calculate_real_umsatz_with_destatis nom rates base_year = .ok out ∧
      rates.foldlM (chainStep nom) (1, initRows nom nb.umsatz_nominal base_year)
        = .ok (p, out) ∧
      p = prodRates rates ∧
      ∀ k rk, rates.get? k = some rk →
        ∃ nr, nom.find? (fun n => n.jahr == rk.jahr) = some nr ∧
          ∀ row ∈ out, row.jahr = rk.jahr →
            row.preisindex_destatis = prodRates (rates.take (k + 1)) ∧
            row.umsatz_real_destatis = nr.umsatz_nominal / prodRates (rates.take (k + 1)) ∧
            row.inflation_kumulativ_destatis
              = (prodRates (rates.take (k + 1)) - 1) * 100 := by
  have hnd : (rates.map (fun r => r.jahr)).Nodup :=
    List.pairwise_map.mpr (hsorted.imp (fun h => ne_of_lt h))
  have hall : ∀ r ∈ rates, (nom.find? (fun n => n.jahr == r.jahr)).isSome :=
    fun r hr => find?_isSome_of_mem (fun n => n.jahr) nom r.jahr (hrates r hr)
  obtain ⟨out, hout⟩ := destatis_ok nom rates base_year nb hnb hall
  obtain ⟨p, hres⟩ := destatis_ok_inv nom rates base_year nb out hnb hout
  have hp : p = prodRates rates := by
    have := chainLoop_fst nom rates 1 _ (p, out) hres
    simpa using this
  refine ⟨out, p, hout, hres, hp, ?_⟩
  intro k rk hk
  obtain ⟨nr, hnr⟩ := Option.isSome_iff_exists.mp (hall rk (List.get?_mem hk))
  refine ⟨nr, hnr, ?_⟩
  intro row hrow hjahr
  obtain ⟨i, hi⟩ := List.mem_iff_get?.mp hrow
  have hlen := destatis_length nom rates base_year nb out hnb hout
  have hlt : i < nom.length := by
    have := get?_lt_length out i row hi
    omega
  obtain ⟨n, hn⟩ := get?_of_lt_length nom i hlt
  obtain ⟨r0, hr0, hj0, _, _, _⟩ :=
    initRows_get?_exists nom nb.umsatz_nominal base_year i n hn
  obtain ⟨row', hrow', hj', _⟩ := chainLoop_get? nom rates _ _ i r0 hres hr0
  have heq : row' = row := Option.some.inj (hrow'.symm.trans hi)
  have hr0j : r0.jahr = rk.jahr := by
    rw [← hjahr, ← heq, hj']
  have hw := chainLoop_get?_written nom rates 1 _ _ k rk i r0 nr hnd hres hk hr0 hr0j hnr
  have heq2 := Option.some.inj (hi.symm.trans hw)
  refine ⟨?_, ?_, ?_⟩
  · rw [heq2]
    show (1 : Rat) * prodRates (rates.take (k + 1)) = prodRates (rates.take (k + 1))
    rw [one_mul]
  · rw [heq2]
    show nr.umsatz_nominal / ((1 : Rat) * prodRates (rates.take (k + 1)))
      = nr.umsatz_nominal / prodRates (rates.take (k + 1))
    rw [one_mul]
  · rw [heq2]
    show ((1 : Rat) * prodRates (rates.take (k + 1)) - 1) * 100
      = (prodRates (rates.take (k + 1)) - 1) * 100
    rw [one_mul]

/-- Witness for C2: three nominal years, two ascending rate records. -/
theorem c2_witness :
    (([⟨2021, 1/10⟩, ⟨2022, 1/5⟩] : List RateRecord).Pairwise
      (fun a b => a.jahr < b.jahr)) ∧
    ∃ out p, calculate_real_umsatz_with_destatis
        [⟨2020, 10⟩, ⟨2021, 21⟩, ⟨2022, 33⟩] [⟨2021, 1/10⟩, ⟨2022, 1/5⟩] 2020 = .ok out ∧
      ([⟨2021, 1/10⟩, ⟨2022, 1/5⟩] : List RateRecord).foldlM
        (chainStep [⟨2020, 10⟩, ⟨2021, 21⟩, ⟨2022, 33⟩])
        (1, initRows [⟨2020, 10⟩, ⟨2021, 21⟩, ⟨2022, 33⟩]
          (⟨2020, 10⟩ : NomRecord).umsatz_nominal 2020) = .ok (p, out) ∧
      p = prodRates [⟨2021, 1/10⟩, ⟨2022, 1/5⟩] ∧
      ∀ k rk, ([⟨2021, 1/10⟩, ⟨2022, 1/5⟩] : List RateRecord).get? k = some rk →
        ∃ nr, ([⟨2020, 10⟩, ⟨2021, 21⟩, ⟨2022, 33⟩] : List NomRecord).find?
            (fun n => n.jahr == rk.jahr) = some nr ∧
          ∀ row ∈ out, row.jahr = rk.jahr →
            row.preisindex_destatis
              = prodRates (([⟨2021, 1/10⟩, ⟨2022, 1/5⟩] : List RateRecord).take (k + 1)) ∧
            row.umsatz_real_destatis = nr.umsatz_nominal /
              prodRates (([⟨2021, 1/10⟩, ⟨2022, 1/5⟩] : List RateRecord).take (k + 1)) ∧
            row.inflation_kumulativ_destatis
              = (prodRates (([⟨2021, 1/10⟩, ⟨2022, 1/5⟩] : List RateRecord).take (k + 1)) - 1)
                  * 100 := by
  have hs : (([⟨2021, 1/10⟩, ⟨2022, 1/5⟩] : List RateRecord).Pairwise
      (fun a b => a.jahr < b.jahr)) := by
    refine List.Pairwise.cons ?_ (List.pairwise_singleton _ _)
    intro r hr
    rcases List.mem_cons.mp hr with h1 | h1
    · rw [h1]; decide
    · simp at h1
  refine ⟨hs, c2_chained_index _ _ 2020 ⟨2020, 10⟩ rfl hs ?_⟩
  intro r hr
  rcases List.mem_cons.mp hr with h1 | h1
  · exact ⟨⟨2021, 21⟩, by simp, by rw [h1]⟩
  · rcases List.mem_cons.mp h1 with h2 | h2
    · exact ⟨⟨2022, 33⟩, by simp, by rw [h2]⟩
    · simp at h2

/-! ### Claim C6 -/

/-- C6: in the chained reconstruction, every nominal-series year without
a rate record keeps the default values — price index 1.0, reconstructed
real revenue equal to the row's nominal revenue, cumulative inflation
0.0 (years unique in the nominal series, rate years all present). -/
theorem c6_default_rows (nom : List NomRecord) (rates : List RateRecord) (base_year : Int)
    (nb : NomRecord)
    (hnb : nom.find? (fun r => r.jahr == base_year) = some nb)
    (hnd : (nom.map (fun n => n.jahr)).Nodup)
    (hrates : ∀ r ∈ rates, ∃ n ∈ nom, n.jahr = r.jahr) :
    ∃ out, calculate_real_umsatz_with_destatis nom rates base_year = .ok out ∧
      ∀ row ∈ out, row.jahr ∉ rates.map (fun r => r.jahr) →
        row.preisindex_destatis = 1 ∧ row.inflation_kumulativ_destatis = 0 ∧
        row.umsatz_real_destatis = row.umsatz_nominal := by
  have hall : ∀ r ∈ rates, (nom.find? (fun n => n.jahr == r.jahr)).isSome :=
    fun r hr => find?_isSome_of_mem (fun n => n.jahr) nom r.jahr (hrates r hr)
  obtain ⟨out, hout⟩ := destatis_ok nom rates base_year nb hnb hall
  obtain ⟨p, hres⟩ := destatis_ok_inv nom rates base_year nb out hnb hout
  refine ⟨out, hout, ?_⟩
  intro row hrow hnotin
  obtain ⟨i, hi⟩ := List.mem_iff_get?.mp hrow
  have hlen := destatis_length nom rates base_year nb out hnb hout
  have hlt : i < nom.length := by
    have := get?_lt_length out i row hi
    omega
  obtain ⟨n, hn⟩ := get?_of_lt_length nom i hlt
  obtain ⟨r0, hr0, hj0, hnom0, hpi0, hkum0, hreal0⟩ :=
    initRows_get?_exists nom nb.umsatz_nominal base_year i n hn
  obtain ⟨row', hrow', hj', _⟩ := chainLoop_get? nom rates _ _ i r0 hres hr0
  have heq : row' = row := Option.some.inj (hrow'.symm.trans hi)
  have hr0nin : r0.jahr ∉ rates.map (fun r => r.jahr) := by
    intro hmem
    apply hnotin
    have hjj : row.jahr = r0.jahr := by
      rw [← heq]
      exact hj'
    rw [hjj]
    exact hmem
  have hu := chainLoop_get?_untouched nom rates _ _ i r0 hres hr0 hr0nin
  have heq2 : row = r0 := Option.some.inj (hi.symm.trans hu)
  rw [heq2]
  refine ⟨hpi0, hkum0, ?_⟩
  rw [hreal0, hnom0]
  by_cases hb : (n.jahr == base_year) = true
  · rw [if_pos hb]
    have hfn : nom.find? (fun x => x.jahr == n.jahr) = some n :=
      find?_of_get?_nodup (fun x => x.jahr) nom hnd i n hn
    have hnjb : n.jahr = base_year := by simpa using hb
    rw [hnjb] at hfn
    rw [Option.some.inj (hnb.symm.trans hfn)]
  · rw [if_neg hb]

/-- Witness for C6: year 2020 (base) has no rate record and keeps its
defaults. -/
theorem c6_witness :
    (([⟨2020, 10⟩, ⟨2021, 21⟩] : List NomRecord).map (fun n => n.jahr)).Nodup ∧
    ∃ out, calculate_real_umsatz_with_destatis
        [⟨2020, 10⟩, ⟨2021, 21⟩] [⟨2021, 1⟩] 2020 = .ok out ∧
      ∀ row ∈ out, row.jahr ∉ ([⟨2021, 1⟩] : List RateRecord).map (fun r => r.jahr) →
        row.preisindex_destatis = 1 ∧ row.inflation_kumulativ_destatis = 0 ∧
        row.umsatz_real_destatis = row.umsatz_nominal := by
  refine ⟨by decide, c6_default_rows _ _ 2020 ⟨2020, 10⟩ rfl (by decide) ?_⟩
  intro r hr
  rcases List.mem_cons.mp hr with h1 | h1
  · exact ⟨⟨2021, 21⟩, by simp, by rw [h1]⟩
  · simp at h1

/-! ### Claim C7 -/

/-- C7 is false as stated: the merge is a LEFT join, not an inner join —
a year present only in the left (chained) series is kept, paired with
missing (`NaN`) Lakner columns, instead of being dropped. -/
theorem c7_counterexample :
    merge_left [⟨2022, 9, 9, 1, 0⟩] [] = [⟨⟨2022, 9, 9, 1, 0⟩, none⟩] ∧
    ([⟨⟨2022, 9, 9, 1, 0⟩, none⟩] : List CombinedRow) ≠ [] := by
  constructor
  · norm_num [merge_left]
  · simp

/-- C7 (amended): the merge at lines 289–290 is a left join on year:
every chained (left) row is kept — paired with the matching Lakner
columns when the year occurs there, with missing columns otherwise —
while years present only in the implicit (right) series are silently
dropped, never an error.  On each joined row with both sides present
the printed differences are chained minus implicit:
`real_diff = real_b − real_a` and
`cum_inflation_diff = cum_inflation_b − cum_inflation_a`.  When both
series carry the same years (as in this program, where both frames
derive from the same nominal frame), the left join coincides with the
inner join of the spec. -/
theorem c7_left_join (left : List DestatisRow) (right : List LaknerCols)
    (hnd : (right.map (fun r => r.jahr)).Nodup) :
    merge_left left right =
      left.map (fun l => ⟨l, right.find? (fun r => r.jahr == l.jahr)⟩) ∧
    (merge_left left right).map (fun c => c.dest) = left ∧
    (∀ y : Int, (∀ l ∈ left, l.jahr ≠ y) →
      ∀ c ∈ merge_left left right, c.dest.jahr ≠ y) ∧
    (∀ c ∈ merge_left left right, ∀ m, c.lakner = some m →
      differenz c = some (c.dest.umsatz_real_destatis - m.umsatz_real) ∧
      ∀ lk, m.inflation_kumulativ = some lk →
        diff_kumul c = some (c.dest.inflation_kumulativ_destatis - lk)) := by
  have hmeq := merge_left_eq left right hnd
  refine ⟨hmeq, ?_, ?_, ?_⟩
  · rw [hmeq, List.map_map]
    show left.map id = left
    exact List.map_id left
  · intro y hy c hc
    rw [hmeq] at hc
    obtain ⟨l, hl, hcl⟩ := List.mem_map.mp hc
    rw [← hcl]
    exact hy l hl
  · intro c _ m hm
    constructor
    · unfold differenz
      rw [hm, Option.map_some']
    · intro lk hlk
      unfold diff_kumul
      rw [hm]
      show m.inflation_kumulativ.map _ = _
      rw [hlk, Option.map_some']

/-- Witness for C7: one chained row for 2020, one matching Lakner
row. -/
theorem c7_witness :
    (([⟨2020, 9, some 1, some 0⟩] : List LaknerCols).map (fun r => r.jahr)).Nodup ∧
    merge_left [⟨2020, 10, 10, 1, 0⟩] [⟨2020, 9, some 1, some 0⟩] =
      ([⟨2020, 10, 10, 1, 0⟩] : List DestatisRow).map
        (fun l => ⟨l, ([⟨2020, 9, some 1, some 0⟩] : List LaknerCols).find?
          (fun r => r.jahr == l.jahr)⟩) ∧
    (merge_left [⟨2020, 10, 10, 1, 0⟩] [⟨2020, 9, some 1, some 0⟩]).map (fun c => c.dest) =
      [⟨2020, 10, 10, 1, 0⟩] ∧
    (∀ y : Int, (∀ l ∈ ([⟨2020, 10, 10, 1, 0⟩] : List DestatisRow), l.jahr ≠ y) →
      ∀ c ∈ merge_left [⟨2020, 10, 10, 1, 0⟩] [⟨2020, 9, some 1, some 0⟩],
        c.dest.jahr ≠ y) ∧
    (∀ c ∈ merge_left [⟨2020, 10, 10, 1, 0⟩] [⟨2020, 9, some 1, some 0⟩],
      ∀ m, c.lakner = some m →
        differenz c = some (c.dest.umsatz_real_destatis - m.umsatz_real) ∧
        ∀ lk, m.inflation_kumulativ = some lk →
          diff_kumul c = some (c.dest.inflation_kumulativ_destatis - lk)) := by
  have h := c7_left_join [⟨2020, 10, 10, 1, 0⟩] [⟨2020, 9, some 1, some 0⟩] (by decide)
  exact ⟨by decide, h.1, h.2.1, h.2.2.1, h.2.2.2⟩

/-! ### Claim C8 -/

/-- C8 is false as stated: the final-year difference is hard-coded to
year 2025, not taken at the maximum joined year.  With data ending in
2024 the lookup `df[df['jahr'] == 2025].iloc[0]` raises (`dataError`)
instead of producing the 2024 difference 14 − 10 = 4. -/
theorem c8_counterexample :
    final_year_diff
      [⟨2020, 10, 10, none, some 1, some 0, none⟩,
       ⟨2024, 11, 10, none, some (11/10), some 10, none⟩]
      [⟨⟨2020, 10, 10, 1, 0⟩, some ⟨2020, 10, some 1, some 0⟩⟩,
       ⟨⟨2024, 11, 10, 11/10, 14⟩, some ⟨2024, 10, some (11/10), some 10⟩⟩]
      = .error .dataError ∧
    final_year_diff
      [⟨2020, 10, 10, none, some 1, some 0, none⟩,
       ⟨2024, 11, 10, none, some (11/10), some 10, none⟩]
      [⟨⟨2020, 10, 10, 1, 0⟩, some ⟨2020, 10, some 1, some 0⟩⟩,
       ⟨⟨2024, 11, 10, 11/10, 14⟩, some ⟨2024, 10, some (11/10), some 10⟩⟩]
      ≠ .ok (some 4) := by
  have h1 : ((2020 : Int) == (2025 : Int)) = false := by decide
  have h2 : ((2024 : Int) == (2025 : Int)) = false := by decide
  have h : final_year_diff
      [⟨2020, 10, 10, none, some 1, some 0, none⟩,
       ⟨2024, 11, 10, none, some (11/10), some 10, none⟩]
      [⟨⟨2020, 10, 10, 1, 0⟩, some ⟨2020, 10, some 1, some 0⟩⟩,
       ⟨⟨2024, 11, 10, 11/10, 14⟩, some ⟨2024, 10, some (11/10), some 10⟩⟩]
      = .error .dataError := by
    norm_num [final_year_diff, List.find?, h1, h2]
  refine ⟨h, ?_⟩
  rw [h]
  intro hc
  exact Except.noConfusion hc

/-- C8 (amended): the final-year difference is computed at the
hard-coded year 2025 — Destatis cumulative inflation minus Lakner
cumulative inflation at the first 2025 row of each frame (it equals the
maximum-joined-year difference exactly when 2025 is that maximum year);
and `mean_annual_rate_b` is the arithmetic mean of the raw externally
supplied rates, expressed as a percentage. -/
theorem c8_summary (df : List Row) (dfc : List CombinedRow)
    (rL : Row) (rC : CombinedRow) (l : Rat)
    (hL : df.find? (fun r => r.jahr == (2025 : Int)) = some rL)
    (hC : dfc.find? (fun c => c.dest.jahr == (2025 : Int)) = some rC)
    (hkum : rL.inflation_kumulativ = some l) :
    final_year_diff df dfc = .ok (some (rC.dest.inflation_kumulativ_destatis - l)) ∧
    ∀ rs : List RateRecord, avg_destatis rs =
      (rs.map (fun r => r.inflation_rate_jahr)).sum / (rs.length : Rat) * 100 := by
  constructor
  · unfold final_year_diff
    simp only [hL, hC, hkum, Option.map_some']
  · intro rs
    unfold avg_destatis
    rw [foldl_add_rates]
    norm_num

/-- Witness for C8: single-row frames that do contain 2025. -/
theorem c8_witness :
    final_year_diff [⟨2025, 12, 10, none, some (6/5), some 20, none⟩]
        [⟨⟨2025, 12, 10, 6/5, 25⟩, some ⟨2025, 10, some (6/5), some 20⟩⟩]
      = .ok (some ((⟨2025, 12, 10, 6/5, 25⟩ : DestatisRow).inflation_kumulativ_destatis
          - 20)) ∧
    ∀ rs : List RateRecord, avg_destatis rs =
      (rs.map (fun r => r.inflation_rate_jahr)).sum / (rs.length : Rat) * 100 :=
  c8_summary [⟨2025, 12, 10, none, some (6/5), some 20, none⟩]
    [⟨⟨2025, 12, 10, 6/5, 25⟩, some ⟨2025, 10, some (6/5), some 20⟩⟩]
    ⟨2025, 12, 10, none, some (6/5), some 20, none⟩
    ⟨⟨2025, 12, 10, 6/5, 25⟩, some ⟨2025, 10, some (6/5), some 20⟩⟩
    20 rfl rfl rfl

end InflationAnalysis

